import Mathlib

/-!
Shallow embedding of the serial-line classification and state-reconciliation
core of the trash-bin monitoring dashboard (src/javascript.js, with the
alternative full-report routine of src/style.js), together with proofs of the
specification's claims about it.

Conventions of the embedding:
* JavaScript numbers holding integer sensor values are modelled as `Int`
  (the code only ever produces integers on the paths modelled here; the one
  floating-point computation, `Utils.calculateCapacity`, is modelled exactly
  over `ℚ`, which agrees with the double-precision evaluation on all integer
  inputs since the rounding error never approaches 1/2).
* `Date.now()` is a parameter `now : Int` threaded through each application;
  the calendar-derived week/month bucket keys (local-timezone `Date`
  arithmetic in the source) are carried alongside it in a `Clock` record
  rather than re-derived from the timestamp.
* JavaScript objects used as string-keyed maps (`usageHistory.weekly`,
  `usageHistory.monthly`) are modelled as association lists in key insertion
  order, which is the enumeration order `Object.keys` gives for
  non-index-like keys such as "2024-10".
* Logging (`Logger.log`, `addLog`) and persistence (`Storage.set`) are
  side effects outside the device state and are not modelled.
-/

namespace TongSampah

/-- The kinds produced by the ordered pattern table in
`DataProcessor.parseSerialLine` (src/javascript.js:224-230). -/
inductive PatternKind where
  | status
  | distance
  | usage
  | ready
  | command
deriving DecidableEq

/-- A classified serial line, as returned by `DataProcessor.parseSerialLine`
(src/javascript.js:206-249): a 5-field comma report (`type: 'full'`), a
pattern match (`type` one of status/distance/usage/ready/command, with the
captured group as `value`; `SYSTEM_READY` has no capture and the source
stores the boolean `true`, which is never read — modelled as `""`), or a
generic message carrying the line. `raw` is the original line. -/
inductive Event where
  | full (status : String) (capacity distance dailyUsage totalUsage : Int)
      (raw : String)
  | pat (kind : PatternKind) (value : String) (raw : String)
  | message (value : String) (raw : String)
deriving DecidableEq

/-- One raw history sample, `{timestamp, capacity}`
(src/javascript.js:321-323). -/
structure Sample where
  timestamp : Int
  capacity : Int
deriving DecidableEq

/-- A weekly/monthly aggregation bucket
(src/javascript.js:349-355, 366-373). -/
structure Bucket where
  total : Int
  count : Int
  max : Int
  min : Int
  timestamps : List Int
deriving DecidableEq

/-- `state.db.usageHistory` (src/javascript.js:1288-1292): the raw daily
sample list and the weekly/monthly buckets keyed by calendar period. -/
structure UsageHistory where
  daily : List Sample
  weekly : List (String × Bucket)
  monthly : List (String × Bucket)
deriving DecidableEq

/-- The device-state record `state.db` (src/javascript.js:1268-1293),
restricted to the fields the reconciliation core reads or writes
(settings, logs and the alert flag are handled elsewhere). `lastActivity`
is initialised to `null` in the source, hence an `Option`. -/
structure DB where
  status : String
  capacity : Int
  distance : Int
  dailyUsage : Int
  totalUsage : Int
  lastActivity : Option Int
  lastUpdate : Int
  usageHistory : UsageHistory
deriving DecidableEq

/-- The wall-clock context of one event application: the value of
`Date.now()` (the source calls it several times during one application;
the calls land within the same batch and are modelled as one instant) and
the week/month bucket keys the source derives from `new Date(timestamp)`
(src/javascript.js:343-345, local-timezone calendar arithmetic that is
carried as data here rather than recomputed). -/
structure Clock where
  now : Int
  weekKey : String
  monthKey : String

/- ===== String primitives =====
The built-in `String.trim`/`String.splitOn` are defined through byte
positions and well-founded recursion; the equivalent operations are defined
here structurally over the character list so that concrete runs of the
model reduce inside the kernel. -/

/-- JavaScript whitespace (the class `\s` and what `String.prototype.trim`
strips): ASCII blanks plus the Unicode space separators, NBSP, BOM and the
two line separators. -/
def isJsSpace (c : Char) : Bool :=
  c = ' ' || c = '\t' || c = '\n' || c = '\r' ||
  c.toNat = 11 || c.toNat = 12 || c.toNat = 0xA0 || c.toNat = 0xFEFF ||
  c.toNat = 0x1680 || (0x2000 ≤ c.toNat && c.toNat ≤ 0x200A) ||
  c.toNat = 0x2028 || c.toNat = 0x2029 || c.toNat = 0x202F ||
  c.toNat = 0x205F || c.toNat = 0x3000

/-- Strip leading and trailing JavaScript whitespace. -/
def trimChars (cs : List Char) : List Char :=
  ((cs.dropWhile isJsSpace).reverse.dropWhile isJsSpace).reverse

/-- `s.trim()`. -/
def jsTrim (s : String) : String :=
  (trimChars s.data).asString

/-- `s.split(sep)` for a one-character separator: splitting the empty
string yields `[""]`, adjacent separators yield empty pieces, exactly as in
JavaScript. -/
def splitChar (sep : Char) : List Char → List (List Char)
  | [] => [[]]
  | c :: cs =>
      let r := splitChar sep cs
      if c = sep then [] :: r
      else
        match r with
        | [] => [[c]]
        | g :: gs => (c :: g) :: gs

/- ===== Number parsing ===== -/

/-- Leading decimal-digit run of a character list. -/
def takeDigits : List Char → List Char
  | [] => []
  | c :: cs => if c.isDigit then c :: takeDigits cs else []

/-- Value of a digit list, most significant first. -/
def digitsToNat (ds : List Char) : Nat :=
  ds.foldl (fun acc c => acc * 10 + (c.toNat - 48)) 0

/-- Model of JavaScript `parseInt(s)` in base 10: skip leading whitespace,
accept an optional sign, read the leading run of decimal digits, ignore any
trailing characters; `none` models `NaN` when no digit is found. (The
`0x`-prefix hexadecimal acceptance of `parseInt` is not modelled; no device
line format produces such fields.) -/
def jsParseInt (s : String) : Option Int :=
  match trimChars s.data with
  | '-' :: rest =>
      let ds := takeDigits rest
      if ds.isEmpty then none else some (-(digitsToNat ds : Int))
  | '+' :: rest =>
      let ds := takeDigits rest
      if ds.isEmpty then none else some (digitsToNat ds : Int)
  | cs =>
      let ds := takeDigits cs
      if ds.isEmpty then none else some (digitsToNat ds : Int)

/-- `parseInt(x) || 0`: the fallback used for the five comma fields
(src/javascript.js:214-217). `NaN || 0` and `0 || 0` are both `0`, so the
defaulted value coincides with `getD 0`. -/
def jsParseIntD (s : String) : Int :=
  (jsParseInt s).getD 0

/- ===== Utils.calculateCapacity ===== -/

/-- `Utils.calculateCapacity(distance)` (src/javascript.js:181-185) with its
default bounds `maxDistance = 50`, `minDistance = 0`: clamp the distance to
[0, 50], map linearly to a percentage, clamp to [0, 100] and round. The
source computes in IEEE doubles; over the integer inputs it receives the
double result rounds to the same integer as the exact rational value used
here. -/
def calculateCapacity (distance : Int) : Int :=
  let maxDistance : ℚ := 50
  let minDistance : ℚ := 0
  let clamped : ℚ := max minDistance (min maxDistance (distance : ℚ))
  let capacity : ℚ := 100 - ((clamped - minDistance) / (maxDistance - minDistance)) * 100
  round (max (0 : ℚ) (min 100 capacity))

/- ===== DataProcessor.parseSerialLine ===== -/

/-- Line-terminator characters, which the JavaScript regex `.` does not
match. -/
def isLineTerm (c : Char) : Bool :=
  c = '\n' || c = '\r' || c = Char.ofNat 0x2028 || c = Char.ofNat 0x2029

/-- `^PREFIX:(.+)$` applied to `line`: succeeds when `line` starts with the
prefix and the remainder is nonempty and free of line terminators (`.` does
not cross them and `$` anchors at end of input); captures the remainder. -/
def matchRestOf (pre line : String) : Option String :=
  if pre.data.isPrefixOf line.data then
    let rest := line.data.drop pre.data.length
    if rest.isEmpty || rest.any isLineTerm then none else some rest.asString
  else none

/-- `^PREFIX:(\d+)` applied to `line`: succeeds when the prefix is followed
by at least one decimal digit; captures the maximal leading digit run (the
pattern is not end-anchored). -/
def matchDigitsOf (pre line : String) : Option String :=
  if pre.data.isPrefixOf line.data then
    let ds := takeDigits (line.data.drop pre.data.length)
    if ds.isEmpty then none else some ds.asString
  else none

/-- The ordered pattern table of `parseSerialLine`
(src/javascript.js:224-241): `STATUS:`, `DISTANCE:`, `USAGE:`,
`SYSTEM_READY`, `CMD_RECEIVED:` — first match wins, in the insertion order
`Object.entries` enumerates. -/
def patternMatch (line : String) : Option (PatternKind × String) :=
  match matchRestOf "STATUS:" line with
  | some v => some (.status, v)
  | none =>
    match matchDigitsOf "DISTANCE:" line with
    | some v => some (.distance, v)
    | none =>
      match matchDigitsOf "USAGE:" line with
      | some v => some (.usage, v)
      | none =>
        if "SYSTEM_READY".data.isPrefixOf line.data then some (.ready, "")
        else
          match matchRestOf "CMD_RECEIVED:" line with
          | some v => some (.command, v)
          | none => none

/-- `DataProcessor.parseSerialLine` (src/javascript.js:206-249): a line
containing a comma that splits into at least 5 fields is a full report whose
four numeric fields each default to 0 on parse failure; otherwise the first
matching pattern yields a tagged value; otherwise the line is a generic
message. Total by construction, mirroring the source's never-throwing
classification. -/
def parseSerialLine (line : String) : Event :=
  let parts := (splitChar ',' line.data).map List.asString
  if line.data.contains ',' && decide (parts.length ≥ 5) then
    .full (parts.headD "") (jsParseIntD (parts.getD 1 ""))
      (jsParseIntD (parts.getD 2 "")) (jsParseIntD (parts.getD 3 ""))
      (jsParseIntD (parts.getD 4 "")) line
  else
    match patternMatch line with
    | some (k, v) => .pat k v line
    | none => .message line line

/-- `DataProcessor.processSerialChunk` (src/javascript.js:191-204): trim the
chunk, split on line feeds, trim each line, drop empties, classify the rest
in order. (`parseSerialLine` never returns a falsy value, so the source's
`if (result)` guard never drops an event.) -/
def processSerialChunk (chunk : String) : List Event :=
  ((splitChar '\n' (jsTrim chunk).data).map trimChars).filterMap
    (fun t => if t.isEmpty then none else some (parseSerialLine t.asString))

/- ===== HistoryManager ===== -/

/-- The fresh bucket the source creates on a missing key
(src/javascript.js:349-355): `{total: 0, count: 0, max: 0, min: 100,
timestamps: []}`. -/
def bucketInit : Bucket :=
  { total := 0, count := 0, max := 0, min := 100, timestamps := [] }

/-- Folding one sample into a bucket (src/javascript.js:358-363,
376-381): add to the running total, bump the count, widen max/min, append
the timestamp. -/
def updateBucket (b : Bucket) (timestamp capacity : Int) : Bucket :=
  { total := b.total + capacity
    count := b.count + 1
    max := max b.max capacity
    min := min b.min capacity
    timestamps := b.timestamps ++ [timestamp] }

/-- Update the bucket at `k` in place, or append a new binding at the end —
the JavaScript object write `obj[k] = v`, which preserves the enumeration
position of an existing key and appends a fresh one. -/
def setKey (m : List (String × Bucket)) (k : String) (v : Bucket) :
    List (String × Bucket) :=
  match m with
  | [] => [(k, v)]
  | (k₁, v₁) :: rest =>
      if k₁ = k then (k₁, v) :: rest else (k₁, v₁) :: setKey rest k v

/-- Current binding of `k`, if any (the JavaScript truthiness test
`if (!obj[k])`, sound here because a bucket is an object and never falsy). -/
def getKey (m : List (String × Bucket)) (k : String) : Option Bucket :=
  match m with
  | [] => none
  | (k₁, v₁) :: rest => if k₁ = k then some v₁ else getKey rest k

/-- The monthly retention step (src/javascript.js:383-388): when more than
12 month keys exist, delete all but the last 12 in key order
(`Object.keys(...).slice(0, -12)` lists, and `delete` removes, the oldest
insertions). -/
def evictOldMonths (m : List (String × Bucket)) : List (String × Bucket) :=
  if m.length > 12 then m.drop (m.length - 12) else m

/-- `HistoryManager.aggregateHistory(timestamp, capacity)`
(src/javascript.js:342-389): fold the sample into the week bucket and the
month bucket named by the clock's calendar keys, then evict month buckets
beyond the 12 most recent. -/
def aggregateHistory (clock : Clock) (capacity : Int) (h : UsageHistory) :
    UsageHistory :=
  let week := (getKey h.weekly clock.weekKey).getD bucketInit
  let weekly := setKey h.weekly clock.weekKey
    (updateBucket week clock.now capacity)
  let month := (getKey h.monthly clock.monthKey).getD bucketInit
  let monthly := setKey h.monthly clock.monthKey
    (updateBucket month clock.now capacity)
  { h with weekly := weekly, monthly := evictOldMonths monthly }

/-- `HistoryManager.addToHistory(capacity)` (src/javascript.js:321-340):
append a `{timestamp, capacity}` sample to the daily list, trim it to its
most recent 500 entries once it exceeds `maxHistorySize = 1000`, then
aggregate. (The periodic `Storage.set` auto-save is persistence, not
state.) -/
def addToHistory (clock : Clock) (capacity : Int) (h : UsageHistory) :
    UsageHistory :=
  let daily := h.daily ++ [⟨clock.now, capacity⟩]
  let daily := if daily.length > 1000 then daily.drop (daily.length - 500)
    else daily
  aggregateHistory clock capacity { h with daily := daily }

/- ===== DataProcessor state application ===== -/

/-- `DataProcessor.handleStatusChange(newStatus, oldStatus)`
(src/javascript.js:305-314): on a TUTUP→BUKA flip, stamp `lastActivity` and
increment both usage counters; the BUKA→TUTUP branch only logs. -/
def handleStatusChange (now : Int) (newStatus oldStatus : String) (db : DB) :
    DB :=
  if newStatus = "BUKA" && oldStatus = "TUTUP" then
    { db with
        lastActivity := some now
        dailyUsage := db.dailyUsage + 1
        totalUsage := db.totalUsage + 1 }
  else db

/-- `DataProcessor.applyUpdate(data)` (src/javascript.js:269-287): a full
report overwrites status, capacity, distance, both counters and
`lastUpdate`; when the status field changed, `handleStatusChange` runs on
the already-overwritten record; finally the report's capacity is recorded
as a history sample. Any non-full event is returned unchanged (the source's
early `return`). -/
def applyUpdate (clock : Clock) (db : DB) (data : Event) : DB :=
  match data with
  | .full status capacity distance dailyUsage totalUsage _ =>
      let oldStatus := db.status
      let db₁ : DB :=
        { db with
            status := status
            capacity := capacity
            distance := distance
            dailyUsage := dailyUsage
            totalUsage := totalUsage
            lastUpdate := clock.now }
      let db₂ := if oldStatus ≠ status then
          handleStatusChange clock.now status oldStatus db₁
        else db₁
      { db₂ with usageHistory := addToHistory clock capacity db₂.usageHistory }
  | _ => db

/-- `DataProcessor.applyPartialUpdate(data)` (src/javascript.js:289-303):
a STATUS value replaces the status string; a DISTANCE value replaces the
distance and recomputes capacity from it; a USAGE value replaces
`dailyUsage`; every other event falls through the switch. In all cases
`lastUpdate` is set afterwards, unconditionally. (For the distance and
usage cases the source applies `parseInt` with no fallback; the classifier
only produces nonempty digit strings there, on which `jsParseIntD` agrees
with `parseInt`.) -/
def applyPartialUpdate (clock : Clock) (db : DB) (data : Event) : DB :=
  let db₁ : DB :=
    match data with
    | .pat .status v _ => { db with status := v }
    | .pat .distance v _ =>
        let d := jsParseIntD v
        { db with distance := d, capacity := calculateCapacity d }
    | .pat .usage v _ => { db with dailyUsage := jsParseIntD v }
    | _ => db
  { db₁ with lastUpdate := clock.now }

/-- Whether an event is a full report (`u.type === 'full'`). -/
def isFull : Event → Bool
  | .full _ _ _ _ _ _ => true
  | _ => false

/-- `DataProcessor.batchUpdate(updates)` (src/javascript.js:252-267): if the
batch holds any full report, apply only the last one and report `true`;
otherwise apply every event through `applyPartialUpdate` in order and
report whether the batch was nonempty. (`getLast?` of the filtered list is
`some` exactly when the source's `fullUpdates.length > 0` test passes, and
then yields `fullUpdates[fullUpdates.length - 1]`.) -/
def batchUpdate (clock : Clock) (db : DB) (updates : List Event) :
    DB × Bool :=
  match (updates.filter isFull).getLast? with
  | some latest => (applyUpdate clock db latest, true)
  | none => (updates.foldl (applyPartialUpdate clock) db, !updates.isEmpty)

/- ===== src/style.js: the alternative full-report routine ===== -/

/-- The `db` fields that `updateFromArduinoData` (src/style.js:239-260)
reads or writes. -/
structure StyleDB where
  status : String
  capacity : Int
  distance : Int
  dailyUsage : Int
  totalUsage : Int
  lastActivity : Option Int
deriving DecidableEq

/-- The parsed 5-field record `processSerialData` passes to
`updateFromArduinoData` (src/style.js:204-210). -/
structure ArduinoData where
  status : String
  capacity : Int
  distance : Int
  dailyUsage : Int
  totalUsage : Int
deriving DecidableEq

/-- `updateFromArduinoData(data)` (src/style.js:239-260): all five fields
are assigned first; only then does the code compare `data.status` against
`db.status`, which it has just overwritten, before possibly stamping
`lastActivity`. The history append and log calls touch no `db` field. -/
def updateFromArduinoData (now : Int) (db : StyleDB) (data : ArduinoData) :
    StyleDB :=
  let db₁ : StyleDB :=
    { db with
        status := data.status
        capacity := data.capacity
        distance := data.distance
        dailyUsage := data.dailyUsage
        totalUsage := data.totalUsage }
  if data.status = "BUKA" && db₁.status ≠ "BUKA" then
    { db₁ with lastActivity := some now }
  else db₁

/- ===== Concrete fixtures used by witnesses and counterexamples ===== -/

/-- An empty usage history, the source's default
(src/javascript.js:1288-1292). -/
def emptyHistory : UsageHistory :=
  { daily := [], weekly := [], monthly := [] }

/-- The source's default device state (src/javascript.js:1268-1275) with the
startup timestamp taken as 0. -/
def db0 : DB :=
  { status := "TUTUP", capacity := 0, distance := 0, dailyUsage := 0,
    totalUsage := 0, lastActivity := none, lastUpdate := 0,
    usageHistory := emptyHistory }

/-- A fixed observation instant used by concrete runs. -/
def clock0 : Clock :=
  { now := 5, weekKey := "2024-W1", monthKey := "2024-1" }

/-- A state that has already accumulated some usage. -/
def dbUsed : DB :=
  { status := "TUTUP", capacity := 50, distance := 25, dailyUsage := 5,
    totalUsage := 9, lastActivity := some 1, lastUpdate := 2,
    usageHistory := emptyHistory }

/-- Whether an event is a USAGE partial report (the one partial kind that
writes a usage counter). -/
def isUsagePat : Event → Bool
  | .pat .usage _ _ => true
  | _ => false

/-- The 13 distinct month keys of the retention scenario: a full year 2024
followed by January 2025, in the `year-month` shape the source builds. -/
def monthKeys13 : List String :=
  ["2024-1", "2024-2", "2024-3", "2024-4", "2024-5", "2024-6", "2024-7",
   "2024-8", "2024-9", "2024-10", "2024-11", "2024-12", "2025-1"]

/-- One observation instant per scenario month. -/
def clocks13 : List Clock :=
  monthKeys13.map (fun mk => { now := 0, weekKey := "2024-W1", monthKey := mk })

/-- The fields shared by the javascript.js state and the style.js state,
projected for comparing the two full-report routines. -/
def DB.toStyle (db : DB) : StyleDB :=
  { status := db.status, capacity := db.capacity, distance := db.distance,
    dailyUsage := db.dailyUsage, totalUsage := db.totalUsage,
    lastActivity := db.lastActivity }

/- ===== Helper lemmas ===== -/

/-- Exact integer form of `Utils.calculateCapacity`: the rounded, clamped
linear map collapses to `100 - 2 * clamp(d, 0, 50)`. -/
theorem calculateCapacity_eq (d : Int) :
    calculateCapacity d = 100 - 2 * max 0 (min 50 d) := by
  have h0 : (0 : ℤ) ≤ max 0 (min 50 d) := le_max_left _ _
  have h50 : max 0 (min 50 d) ≤ 50 := max_le (by norm_num) (min_le_left _ _)
  have hc : max (0 : ℚ) (min 50 ((d : ℤ) : ℚ)) = ((max 0 (min 50 d) : ℤ) : ℚ) := by
    push_cast
    rfl
  have hval : (100 : ℚ) - (((max 0 (min 50 d) : ℤ) : ℚ) - 0) / (50 - 0) * 100
      = ((100 - 2 * max 0 (min 50 d) : ℤ) : ℚ) := by
    push_cast
    ring
  have hle : ((100 - 2 * max 0 (min 50 d) : ℤ) : ℚ) ≤ 100 := by
    have : (100 : ℤ) - 2 * max 0 (min 50 d) ≤ 100 := by omega
    exact_mod_cast this
  have hge : (0 : ℚ) ≤ ((100 - 2 * max 0 (min 50 d) : ℤ) : ℚ) := by
    have : (0 : ℤ) ≤ 100 - 2 * max 0 (min 50 d) := by omega
    exact_mod_cast this
  simp only [calculateCapacity]
  rw [hc, hval, min_eq_right hle, max_eq_right hge, round_intCast]

/-- `Utils.calculateCapacity` always lands in the percentage range. -/
theorem calculateCapacity_bounds (d : Int) :
    0 ≤ calculateCapacity d ∧ calculateCapacity d ≤ 100 := by
  rw [calculateCapacity_eq]
  have h0 : (0 : ℤ) ≤ max 0 (min 50 d) := le_max_left _ _
  have h50 : max 0 (min 50 d) ≤ 50 := max_le (by norm_num) (min_le_left _ _)
  omega

/-- The Boolean guard of `handleStatusChange`, read as a proposition. -/
theorem handleStatusChange_eq (now : Int) (ns os : String) (db : DB) :
    handleStatusChange now ns os db =
      if ns = "BUKA" ∧ os = "TUTUP" then
        { db with
            lastActivity := some now
            dailyUsage := db.dailyUsage + 1
            totalUsage := db.totalUsage + 1 }
      else db := by
  unfold handleStatusChange
  simp only [Bool.and_eq_true, decide_eq_true_eq]

/-- Closed form of a full-report application: every field of the result,
with the usage counters incremented exactly when the report flips the
status from closed (TUTUP) to open (BUKA). -/
theorem applyUpdate_full (clock : Clock) (db : DB) (s : String)
    (c d du tu : Int) (raw : String) :
    applyUpdate clock db (.full s c d du tu raw) =
      { status := s
        capacity := c
        distance := d
        dailyUsage := du + (if s = "BUKA" ∧ db.status = "TUTUP" then 1 else 0)
        totalUsage := tu + (if s = "BUKA" ∧ db.status = "TUTUP" then 1 else 0)
        lastActivity :=
          if s = "BUKA" ∧ db.status = "TUTUP" then some clock.now
          else db.lastActivity
        lastUpdate := clock.now
        usageHistory := addToHistory clock c db.usageHistory } := by
  simp only [applyUpdate, handleStatusChange_eq]
  by_cases h2 : s = "BUKA" ∧ db.status = "TUTUP"
  · have h1 : db.status ≠ s := by
      rw [h2.2, h2.1]
      decide
    simp [h1, h2]
  · by_cases h1 : db.status = s
    · have hBT : ¬ (s = "BUKA" ∧ s = "TUTUP") := by
        rintro ⟨ha, hb⟩
        rw [ha] at hb
        exact absurd hb (by decide)
      simp [h1, h2, hBT]
    · simp [Ne.symm h1, h2]

/- ===== Claim theorems ===== -/

/-- C1: for every batch of events produced from one chunk, if the batch
contains at least one FullReport the state update applies exactly the last
FullReport in batch order (writing the batch as `l₁ ++ f :: l₂` with no
FullReport after `f`) and applies none of the PartialReports; if the batch
contains no FullReport, each event is applied through the
partial-update path in batch order. -/
theorem batchUpdate_last_full_wins :
    (∀ (clock : Clock) (db : DB) (l₁ l₂ : List Event) (f : Event),
      isFull f = true → l₂.filter isFull = [] →
      batchUpdate clock db (l₁ ++ f :: l₂) = (applyUpdate clock db f, true))
    ∧ ∀ (clock : Clock) (db : DB) (us : List Event),
      us.filter isFull = [] →
      batchUpdate clock db us
        = (us.foldl (applyPartialUpdate clock) db, !us.isEmpty) := by
  constructor
  · intro clock db l₁ l₂ f hf hl₂
    unfold batchUpdate
    rw [List.filter_append, List.filter_cons_of_pos hf, hl₂,
      List.getLast?_concat]
  · intro clock db us hus
    unfold batchUpdate
    rw [hus]
    rfl

/-- Witness for C1: a concrete batch holding a message, a full report and a
trailing status partial applies exactly the full report; a concrete
full-free batch folds through the partial path. -/
theorem batchUpdate_last_full_wins_witness :
    (isFull (Event.full "BUKA" 45 27 3 120 "r") = true ∧
      [Event.pat .status "TUTUP" "s"].filter isFull = [] ∧
      batchUpdate clock0 db0
          ([Event.message "hi" "hi"] ++
            Event.full "BUKA" 45 27 3 120 "r" :: [Event.pat .status "TUTUP" "s"])
        = (applyUpdate clock0 db0 (Event.full "BUKA" 45 27 3 120 "r"), true))
    ∧ [Event.message "hi" "hi", Event.pat .usage "7" "u"].filter isFull = [] ∧
      batchUpdate clock0 db0 [Event.message "hi" "hi", Event.pat .usage "7" "u"]
        = ([Event.message "hi" "hi", Event.pat .usage "7" "u"].foldl
            (applyPartialUpdate clock0) db0, true) :=
  ⟨⟨rfl, by decide,
    batchUpdate_last_full_wins.1 clock0 db0 _ _ _ rfl (by decide)⟩,
   by decide,
   by
    have h := batchUpdate_last_full_wins.2 clock0 db0
      [Event.message "hi" "hi", Event.pat .usage "7" "u"] (by decide)
    simpa using h⟩

/-- C2: a FullReport whose status is BUKA applied against a prior state
with status TUTUP yields dailyUsage and totalUsage equal to the report's
fields plus 1 and stamps lastActivity with the current time; in
particular the line "BUKA,45,27,3,120" against a TUTUP state yields
status BUKA, capacity 45, distance 27, dailyUsage 4, totalUsage 121 and
lastActivity = now. -/
theorem applyUpdate_closed_to_open :
    (∀ (clock : Clock) (db : DB) (s : String) (c d du tu : Int)
      (raw : String), db.status = "TUTUP" → s = "BUKA" →
      (applyUpdate clock db (.full s c d du tu raw)).dailyUsage = du + 1 ∧
      (applyUpdate clock db (.full s c d du tu raw)).totalUsage = tu + 1 ∧
      (applyUpdate clock db (.full s c d du tu raw)).lastActivity
        = some clock.now)
    ∧ ∀ (clock : Clock) (db : DB), db.status = "TUTUP" →
      (applyUpdate clock db (parseSerialLine "BUKA,45,27,3,120")).status
          = "BUKA" ∧
      (applyUpdate clock db (parseSerialLine "BUKA,45,27,3,120")).capacity
          = 45 ∧
      (applyUpdate clock db (parseSerialLine "BUKA,45,27,3,120")).distance
          = 27 ∧
      (applyUpdate clock db (parseSerialLine "BUKA,45,27,3,120")).dailyUsage
          = 4 ∧
      (applyUpdate clock db (parseSerialLine "BUKA,45,27,3,120")).totalUsage
          = 121 ∧
      (applyUpdate clock db (parseSerialLine "BUKA,45,27,3,120")).lastActivity
          = some clock.now := by
  have hline : parseSerialLine "BUKA,45,27,3,120"
      = .full "BUKA" 45 27 3 120 "BUKA,45,27,3,120" := by decide
  constructor
  · intro clock db s c d du tu raw hdb hs
    rw [applyUpdate_full]
    have hcond : s = "BUKA" ∧ db.status = "TUTUP" := ⟨hs, hdb⟩
    simp [hcond]
  · intro clock db hdb
    rw [hline, applyUpdate_full]
    have hcond : ("BUKA" : String) = "BUKA" ∧ db.status = "TUTUP" :=
      ⟨rfl, hdb⟩
    simp [hcond]

/-- Witness for C2: the scenario line applied to the default (TUTUP)
state. -/
theorem applyUpdate_closed_to_open_witness :
    db0.status = "TUTUP" ∧
    ((applyUpdate clock0 db0 (parseSerialLine "BUKA,45,27,3,120")).status
        = "BUKA" ∧
      (applyUpdate clock0 db0 (parseSerialLine "BUKA,45,27,3,120")).capacity
        = 45 ∧
      (applyUpdate clock0 db0 (parseSerialLine "BUKA,45,27,3,120")).distance
        = 27 ∧
      (applyUpdate clock0 db0 (parseSerialLine "BUKA,45,27,3,120")).dailyUsage
        = 4 ∧
      (applyUpdate clock0 db0 (parseSerialLine "BUKA,45,27,3,120")).totalUsage
        = 121 ∧
      (applyUpdate clock0 db0 (parseSerialLine "BUKA,45,27,3,120")).lastActivity
        = some clock0.now) :=
  ⟨rfl, applyUpdate_closed_to_open.2 clock0 db0 rfl⟩

/-- C3: the derived capacity is the rounded clamp of the linear
distance-to-percentage map, with capacity(0) = 100, capacity(50) = 0 and
capacity non-increasing in the distance. -/
theorem calculateCapacity_spec :
    (∀ d : Int, calculateCapacity d =
      round (max (0 : ℚ)
        (min 100 (100 - 100 * (max 0 (min 50 (d : ℚ)) - 0) / (50 - 0)))))
    ∧ calculateCapacity 0 = 100
    ∧ calculateCapacity 50 = 0
    ∧ ∀ d₁ d₂ : Int, d₁ ≤ d₂ → calculateCapacity d₂ ≤ calculateCapacity d₁ := by
  refine ⟨?_, ?_, ?_, ?_⟩
  · intro d
    have hc : max (0 : ℚ) (min 50 ((d : ℤ) : ℚ))
        = ((max 0 (min 50 d) : ℤ) : ℚ) := by
      push_cast
      rfl
    have h0 : (0 : ℤ) ≤ max 0 (min 50 d) := le_max_left _ _
    have h50 : max 0 (min 50 d) ≤ 50 := max_le (by norm_num) (min_le_left _ _)
    have hval : (100 : ℚ) - 100 * (((max 0 (min 50 d) : ℤ) : ℚ) - 0) / (50 - 0)
        = ((100 - 2 * max 0 (min 50 d) : ℤ) : ℚ) := by
      push_cast
      ring
    have hle : ((100 - 2 * max 0 (min 50 d) : ℤ) : ℚ) ≤ 100 := by
      have hz : (100 : ℤ) - 2 * max 0 (min 50 d) ≤ 100 := by omega
      exact_mod_cast hz
    have hge : (0 : ℚ) ≤ ((100 - 2 * max 0 (min 50 d) : ℤ) : ℚ) := by
      have hz : (0 : ℤ) ≤ 100 - 2 * max 0 (min 50 d) := by omega
      exact_mod_cast hz
    rw [calculateCapacity_eq, hc, hval, min_eq_right hle, max_eq_right hge,
      round_intCast]
  · rw [calculateCapacity_eq]
    decide
  · rw [calculateCapacity_eq]
    decide
  · intro d₁ d₂ h
    rw [calculateCapacity_eq, calculateCapacity_eq]
    have hmm : max 0 (min 50 d₁) ≤ max 0 (min 50 d₂) :=
      max_le_max le_rfl (min_le_min le_rfl h)
    omega

/-- Witness for C3: the antitonicity instance at distances 0 and 50. -/
theorem calculateCapacity_spec_witness :
    (0 : ℤ) ≤ 50 ∧ calculateCapacity 50 ≤ calculateCapacity 0 :=
  ⟨by decide, calculateCapacity_spec.2.2.2 0 50 (by decide)⟩

/-- C4 counterexample: the usage counters are not monotone — a full report
carrying zero counters, applied with no status change, drops both counters
below their prior values. -/
theorem counters_not_monotone :
    ¬ (dbUsed.dailyUsage ≤
        (applyUpdate clock0 dbUsed (.full "TUTUP" 0 0 0 0 "r")).dailyUsage ∧
      dbUsed.totalUsage ≤
        (applyUpdate clock0 dbUsed (.full "TUTUP" 0 0 0 0 "r")).totalUsage) := by
  decide

/-- C4 amended: the counters are overwritten, not accumulated — a full
report sets them to the report's own fields plus 1 each exactly on a
TUTUP→BUKA flip, a USAGE partial sets dailyUsage to the reported value,
and every other event leaves both counters unchanged, so the counters may
decrease whenever a report carries smaller values. -/
theorem counters_characterization :
    (∀ (clock : Clock) (db : DB) (s : String) (c d du tu : Int)
      (raw : String),
      (applyUpdate clock db (.full s c d du tu raw)).dailyUsage
        = du + (if s = "BUKA" ∧ db.status = "TUTUP" then 1 else 0) ∧
      (applyUpdate clock db (.full s c d du tu raw)).totalUsage
        = tu + (if s = "BUKA" ∧ db.status = "TUTUP" then 1 else 0))
    ∧ (∀ (clock : Clock) (db : DB) (v raw : String),
      (applyPartialUpdate clock db (.pat .usage v raw)).dailyUsage
        = jsParseIntD v ∧
      (applyPartialUpdate clock db (.pat .usage v raw)).totalUsage
        = db.totalUsage)
    ∧ ∀ (clock : Clock) (db : DB) (e : Event),
      isFull e = false → isUsagePat e = false →
      (applyPartialUpdate clock db e).dailyUsage = db.dailyUsage ∧
      (applyPartialUpdate clock db e).totalUsage = db.totalUsage := by
  refine ⟨?_, ?_, ?_⟩
  · intro clock db s c d du tu raw
    rw [applyUpdate_full]
    exact ⟨rfl, rfl⟩
  · intro clock db v raw
    exact ⟨rfl, rfl⟩
  · intro clock db e hfull husage
    cases e with
    | full s c d du tu raw => exact absurd hfull (by simp [isFull])
    | message v raw => exact ⟨rfl, rfl⟩
    | pat k v raw =>
      cases k with
      | usage => exact absurd husage (by simp [isUsagePat])
      | status => exact ⟨rfl, rfl⟩
      | distance => exact ⟨rfl, rfl⟩
      | ready => exact ⟨rfl, rfl⟩
      | command => exact ⟨rfl, rfl⟩

/-- Witness for C4 amended: a message event against the default state
leaves both counters untouched. -/
theorem counters_characterization_witness :
    isFull (Event.message "hi" "hi") = false ∧
    isUsagePat (Event.message "hi" "hi") = false ∧
    (applyPartialUpdate clock0 db0 (Event.message "hi" "hi")).dailyUsage
      = db0.dailyUsage ∧
    (applyPartialUpdate clock0 db0 (Event.message "hi" "hi")).totalUsage
      = db0.totalUsage :=
  ⟨rfl, rfl,
    (counters_characterization.2.2 clock0 db0 (Event.message "hi" "hi")
      rfl rfl).1,
    (counters_characterization.2.2 clock0 db0 (Event.message "hi" "hi")
      rfl rfl).2⟩

/-- C5 counterexample: a full report carrying the parsed capacity 150,
applied to a state whose capacity is in range, leaves the range — the
parsed field is written verbatim. -/
theorem capacity_range_violated :
    (0 ≤ db0.capacity ∧ db0.capacity ≤ 100) ∧
    ¬ (0 ≤ (applyUpdate clock0 db0 (.full "TUTUP" 150 10 0 0 "r")).capacity ∧
      (applyUpdate clock0 db0 (.full "TUTUP" 150 10 0 0 "r")).capacity
        ≤ 100) := by
  decide

/-- C5 amended: the [0,100] range is preserved by every non-full event — a
DISTANCE partial recomputes capacity through the clamped formula and the
other partial kinds leave it unchanged — while a FullReport writes its
parsed capacity field verbatim, which can leave the range. -/
theorem capacity_range_amended :
    (∀ (clock : Clock) (db : DB) (e : Event), isFull e = false →
      0 ≤ db.capacity → db.capacity ≤ 100 →
      0 ≤ (applyPartialUpdate clock db e).capacity ∧
      (applyPartialUpdate clock db e).capacity ≤ 100)
    ∧ ∀ (clock : Clock) (db : DB) (s : String) (c d du tu : Int)
      (raw : String),
      (applyUpdate clock db (.full s c d du tu raw)).capacity = c := by
  constructor
  · intro clock db e hfull h0 h100
    cases e with
    | full s c d du tu raw => exact absurd hfull (by simp [isFull])
    | message v raw => exact ⟨h0, h100⟩
    | pat k v raw =>
      cases k with
      | distance => exact calculateCapacity_bounds (jsParseIntD v)
      | status => exact ⟨h0, h100⟩
      | usage => exact ⟨h0, h100⟩
      | ready => exact ⟨h0, h100⟩
      | command => exact ⟨h0, h100⟩
  · intro clock db s c d du tu raw
    rw [applyUpdate_full]

/-- Witness for C5 amended: the scenario line DISTANCE:10 applied to the
default state keeps capacity in range. -/
theorem capacity_range_amended_witness :
    isFull (Event.pat .distance "10" "DISTANCE:10") = false ∧
    0 ≤ db0.capacity ∧ db0.capacity ≤ 100 ∧
    (0 ≤ (applyPartialUpdate clock0 db0
        (Event.pat .distance "10" "DISTANCE:10")).capacity ∧
      (applyPartialUpdate clock0 db0
        (Event.pat .distance "10" "DISTANCE:10")).capacity ≤ 100) :=
  ⟨rfl, by decide, by decide,
    capacity_range_amended.1 clock0 db0 (Event.pat .distance "10" "DISTANCE:10")
      rfl (by decide) (by decide)⟩

/-- C6 counterexample: a STATUS partial that flips TUTUP→BUKA does change
the status but performs none of the transition side effects — the counters
are not incremented and lastActivity is not stamped. -/
theorem status_partial_no_side_effects :
    db0.status = "TUTUP" ∧
    (applyPartialUpdate clock0 db0 (.pat .status "BUKA" "STATUS:BUKA")).status
      = "BUKA" ∧
    ¬ ((applyPartialUpdate clock0 db0
          (.pat .status "BUKA" "STATUS:BUKA")).dailyUsage
        = db0.dailyUsage + 1 ∧
      (applyPartialUpdate clock0 db0
          (.pat .status "BUKA" "STATUS:BUKA")).totalUsage
        = db0.totalUsage + 1 ∧
      (applyPartialUpdate clock0 db0
          (.pat .status "BUKA" "STATUS:BUKA")).lastActivity
        = some clock0.now) := by
  decide

/-- C6 amended: a STATUS partial sets the status field and lastUpdate and
nothing else — unlike a FullReport it never invokes the status-change side
effects, so lastActivity, dailyUsage and totalUsage are unchanged even on a
TUTUP→BUKA change. -/
theorem status_partial_update_frame :
    ∀ (clock : Clock) (db : DB) (v raw : String),
      (applyPartialUpdate clock db (.pat .status v raw)).status = v ∧
      (applyPartialUpdate clock db (.pat .status v raw)).lastUpdate
        = clock.now ∧
      (applyPartialUpdate clock db (.pat .status v raw)).capacity
        = db.capacity ∧
      (applyPartialUpdate clock db (.pat .status v raw)).distance
        = db.distance ∧
      (applyPartialUpdate clock db (.pat .status v raw)).dailyUsage
        = db.dailyUsage ∧
      (applyPartialUpdate clock db (.pat .status v raw)).totalUsage
        = db.totalUsage ∧
      (applyPartialUpdate clock db (.pat .status v raw)).lastActivity
        = db.lastActivity ∧
      (applyPartialUpdate clock db (.pat .status v raw)).usageHistory
        = db.usageHistory :=
  fun _ _ _ _ => ⟨rfl, rfl, rfl, rfl, rfl, rfl, rfl, rfl⟩

/-- C7 counterexample: a batch holding only a message event does mutate the
state — `lastUpdate` is stamped with the current time by the unconditional
write after the partial-update switch. -/
theorem message_mutates_lastUpdate :
    db0.lastUpdate = 0 ∧ clock0.now = 5 ∧
    (batchUpdate clock0 db0 [.message "hello" "hello"]).1.lastUpdate = 5 ∧
    (batchUpdate clock0 db0 [.message "hello" "hello"]).1 ≠ db0 ∧
    (batchUpdate clock0 db0 [.pat .ready "" "SYSTEM_READY"]).1 ≠ db0 := by
  decide

/-- C7 amended: a Message or SYSTEM_READY event leaves every field of the
device state unchanged except `lastUpdate`, which is set to the current
time. -/
theorem message_ready_frame :
    ∀ (clock : Clock) (db : DB) (v raw : String),
      applyPartialUpdate clock db (.message v raw)
        = { db with lastUpdate := clock.now } ∧
      applyPartialUpdate clock db (.pat .ready v raw)
        = { db with lastUpdate := clock.now } :=
  fun _ _ _ _ => ⟨rfl, rfl⟩

/-- C8: the classifier is total — every line yields exactly one event, a
full report, a pattern match or a message (never an error) — and on the
malformed line "STATUS,notanumber,27,3,120" the unparseable capacity field
defaults to 0 while the other fields parse normally. -/
theorem parseSerialLine_total :
    (∀ line : String,
      (∃ s c d du tu, parseSerialLine line = .full s c d du tu line) ∨
      (∃ k v, parseSerialLine line = .pat k v line) ∨
      parseSerialLine line = .message line line)
    ∧ parseSerialLine "STATUS,notanumber,27,3,120"
        = .full "STATUS" 0 27 3 120 "STATUS,notanumber,27,3,120" := by
  constructor
  · intro line
    simp only [parseSerialLine]
    split
    · exact Or.inl ⟨_, _, _, _, _, rfl⟩
    · rcases hp : patternMatch line with _ | ⟨k, v⟩
      · exact Or.inr (Or.inr (by simp [hp]))
      · exact Or.inr (Or.inl ⟨k, v, by simp [hp]⟩)
  · decide

/-- Length bound of the monthly eviction step: after it runs, at most 12
month buckets remain, whatever the input size. -/
theorem evictOldMonths_le (m : List (String × Bucket)) :
    (evictOldMonths m).length ≤ 12 := by
  unfold evictOldMonths
  split
  · rw [List.length_drop]
    omega
  · omega

/-- C9: every record operation leaves at most 12 month buckets, and
recording samples for 13 distinct months (a full year plus one) from an
empty history leaves exactly the 12 most recently created buckets, in
creation order. -/
theorem monthly_retention :
    (∀ (clock : Clock) (capacity : Int) (h : UsageHistory),
      (addToHistory clock capacity h).monthly.length ≤ 12)
    ∧ monthKeys13.Nodup
    ∧ ((clocks13.foldl (fun h ck => addToHistory ck 40 h)
          emptyHistory).monthly.map Prod.fst
        = monthKeys13.drop 1) := by
  refine ⟨?_, by decide, by decide⟩
  intro clock capacity h
  exact evictOldMonths_le _

/-- C10: the two full-report routines diverge — style.js's
`updateFromArduinoData` compares the incoming status against the status it
has just overwritten, so its door-opened branch never fires and
lastActivity is never written, while javascript.js's `applyUpdate` detects
the TUTUP→BUKA flip; on the scenario report the two produce different
states. -/
theorem style_vs_javascript_divergence :
    (∀ (now : Int) (db : StyleDB) (data : ArduinoData),
      (updateFromArduinoData now db data).lastActivity = db.lastActivity)
    ∧ (applyUpdate clock0 db0 (.full "BUKA" 45 27 3 120 "r")).toStyle
        ≠ updateFromArduinoData clock0.now db0.toStyle
            { status := "BUKA", capacity := 45, distance := 27,
              dailyUsage := 3, totalUsage := 120 } := by
  constructor
  · intro now db data
    unfold updateFromArduinoData
    by_cases h : data.status = "BUKA"
    · simp [h]
    · simp [h]
  · decide

end TongSampah
